import Mathlib

/-!
Verification development for the Recut Tracker classification and SKU-rollup
core (src/utils/sku_utils.py and src/utils/data_loader.py), shallowly embedded
in Lean.  Python strings are modelled as Lean `String` (lists of characters);
`None`/`NaN` inputs are modelled as `Option.none`; Python dicts with string
keys are modelled as association lists with first-match lookup.
-/

namespace RecutTracker

/-! ### Python string primitives -/

/-- Characters removed by Python `str.strip()` (ASCII whitespace). -/
def isPySpace (c : Char) : Bool :=
  c = ' ' || c = '\t' || c = '\n' || c = '\r' || c = '\x0b' || c = '\x0c'

/-- `str.strip()` on a character list. -/
def pyStripL (l : List Char) : List Char :=
  ((l.dropWhile isPySpace).reverse.dropWhile isPySpace).reverse

/-- Python `s.strip()`. -/
def pyStrip (s : String) : String := String.mk (pyStripL s.data)

/-- Python `s.upper()` (ASCII). -/
def pyUpper (s : String) : String := String.mk (s.data.map Char.toUpper)

/-- Python `s.lower()` (ASCII). -/
def pyLower (s : String) : String := String.mk (s.data.map Char.toLower)

/-- Python `s.split(sep)` with a one-character separator: splits at every
occurrence of `sep`, keeping empty pieces; `"".split(sep) == ['']`. -/
def pySplit (sep : Char) : List Char → List (List Char)
  | [] => [[]]
  | c :: cs =>
    if c = sep then [] :: pySplit sep cs
    else
      match pySplit sep cs with
      | [] => [[c]]
      | h :: t => (c :: h) :: t

/-- Python `sep.join(parts)` with a one-character separator. -/
def joinChar (sep : Char) : List (List Char) → List Char
  | [] => []
  | [p] => p
  | p :: q :: ps => p ++ sep :: joinChar sep (q :: ps)

/-- Python `s.startswith(pre)`. -/
def pyStartswith (s pre : String) : Bool := List.isPrefixOf pre.data s.data

/-- Python `c in s` for a single character. -/
def pyContainsChar (s : String) (c : Char) : Bool := s.data.contains c

/-- Contiguous-subsequence test on character lists. -/
def containsSeq (sub : List Char) : List Char → Bool
  | [] => sub.isEmpty
  | c :: cs => List.isPrefixOf sub (c :: cs) || containsSeq sub cs

/-- Python `sub in s` (substring containment). -/
def pyContains (s sub : String) : Bool := containsSeq sub.data s.data

/-! ### sku_utils.py: color vocabulary, exceptions, parent-SKU rollup -/

/-- `COLOR_CODES` from src/utils/sku_utils.py. -/
def COLOR_CODES : List String :=
  ["BK", "CB", "MC", "MA", "MB", "MT", "RG", "WD", "WG",
   "TB", "TD", "TJ", "RD", "ML", "NG", "NP", "RT"]

/-- `SKU_EXCEPTIONS` from src/utils/sku_utils.py. -/
def SKU_EXCEPTIONS : List String := ["PI-CB", "MI-556-TR", "MI-556-SN"]

/-- `part.upper() in COLOR_CODES` for one hyphen-delimited segment. -/
def isColorSegment (p : List Char) : Bool :=
  COLOR_CODES.contains (String.mk (p.map Char.toUpper))

/-- Core of `get_parent_sku` applied to the already-stripped, non-empty SKU:
exception check, split on `-`, drop color segments, rejoin (or return the
input unchanged when every segment was dropped). -/
def parentCore (t : String) : String :=
  if SKU_EXCEPTIONS.contains t then t
  else if ((pySplit '-' t.data).filter (fun p => !isColorSegment p)).isEmpty then t
  else String.mk (joinChar '-' ((pySplit '-' t.data).filter (fun p => !isColorSegment p)))

/-- `get_parent_sku` from src/utils/sku_utils.py.  `none` models `None`/`NaN`;
a stripped-to-empty SKU also yields `none`. -/
def get_parent_sku : Option String → Option String
  | none => none
  | some s => if pyStrip s = "" then none else some (parentCore (pyStrip s))

/-! ### data_loader.py: lookup tables -/

/-- `SEWING_REPAIRS_DEPT_MAP` from src/utils/data_loader.py (Scheme A). -/
def SEWING_REPAIRS_DEPT_MAP : List (String × String) :=
  [("A1A", "Cutting Operator Error"),
   ("A1B", "Cutting Operator Error"),
   ("A1C", "Cutting Operator Error"),
   ("A1D", "Cutting Operator Error"),
   ("A2A", "Sewing Operator Error"),
   ("A2D", "Sewing Operator Error"),
   ("S1", "Sewing Operator Error"),
   ("S2", "Sewing Operator Error"),
   ("S3", "Sewing Operator Error"),
   ("S4", "Sewing Operator Error"),
   ("S5", "Sewing Operator Error"),
   ("S6", "Sewing Operator Error"),
   ("S8", "Sewing Operator Error"),
   ("A1", "Cutting Machine Error"),
   ("B1C", "Cutting Machine Error"),
   ("B1E", "Cutting Machine Error"),
   ("A", "Sewing Machine Error"),
   ("B2", "Sewing Machine Error"),
   ("B3", "Other Machine Error"),
   ("C1", "Material Defect"),
   ("C2", "Material Defect"),
   ("C3", "Material Defect")]

/-- `RECUT_LIST_DEPT_MAP` from src/utils/data_loader.py (Scheme B). -/
def RECUT_LIST_DEPT_MAP : List (String × String) :=
  [("A", "Sewing Operator Error"),
   ("A: SMO Error", "Sewing Operator Error"),
   ("A: SMO ERROR", "Sewing Operator Error"),
   ("L", "Cutting Machine Error"),
   ("L: Lazer error", "Cutting Machine Error"),
   ("AMS", "Sewing Machine Error"),
   ("AMS: AMS error", "Sewing Machine Error"),
   ("A*", "Other Machine Error"),
   ("A* Machine Error", "Other Machine Error"),
   ("B", "Cutting Operator Error"),
   ("B: Wrong Material Cut", "Cutting Operator Error"),
   ("C", "Cutting Operator Error"),
   ("c", "Cutting Operator Error"),
   ("C: Marking error", "Cutting Operator Error"),
   ("F", "Cutting Operator Error"),
   ("F: Material Cut Too Short", "Cutting Operator Error"),
   ("D", "Material Defect"),
   ("D: Material Defect", "Material Defect"),
   ("E", "Other"),
   ("E: Missing Pieces", "Other"),
   ("P", "Other"),
   ("P: PA Error", "Other"),
   ("A/D", "Other")]

/-- Python dict lookup (`k in d` then `d[k]`): first exact key match. -/
def dictLookup (k : String) : List (String × String) → Option String
  | [] => none
  | (a, b) :: t => if k = a then some b else dictLookup k t

/-- Case-insensitive first match, modelling the lowercase-membership check and
first-match loop of `get_department_from_recut_code`. -/
def dictLookupCI (k : String) : List (String × String) → Option String
  | [] => none
  | (a, b) :: t => if pyLower a = pyLower k then some b else dictLookupCI k t

/-- The closed ErrorSource enumeration (8 values). -/
def ERROR_SOURCES : List String :=
  ["Cutting Operator Error", "Sewing Operator Error", "Cutting Machine Error",
   "Sewing Machine Error", "Other Machine Error", "Material Defect",
   "Other", "Unknown"]

/-! ### data_loader.py: Scheme A classifier -/

/-- `code.split(' ')[0].split('-')[0].strip()` from
`get_department_from_reason_code`. -/
def pfxOf (code : String) : String :=
  String.mk (pyStripL ((pySplit '-' ((pySplit ' ' code.data).headD [])).headD []))

/-- The `startswith` fallback chain of `get_department_from_reason_code`. -/
def reasonFallback (code : String) : String :=
  if pyStartswith code "A1" && !pyStartswith code "A1A" && !pyStartswith code "A1B"
      && !pyStartswith code "A1C" && !pyStartswith code "A1D" then
    "Cutting Machine Error"
  else if pyStartswith code "A1" then "Cutting Operator Error"
  else if pyStartswith code "A2" || pyStartswith code "S" then "Sewing Operator Error"
  else if pyStartswith code "B1C" || pyStartswith code "B1E" then "Cutting Machine Error"
  else if pyStartswith code "B2" then "Sewing Machine Error"
  else if pyStartswith code "B" then "Other Machine Error"
  else if pyStartswith code "C" then "Material Defect"
  else "Other"

/-- Body of `get_department_from_reason_code` on the stripped code: exact
match, then prefix-extraction retry, then pattern fallback. -/
def reasonCodeResult (code : String) : String :=
  match dictLookup code SEWING_REPAIRS_DEPT_MAP with
  | some v => v
  | none =>
    match dictLookup (pfxOf code) SEWING_REPAIRS_DEPT_MAP with
    | some v => v
    | none => reasonFallback code

/-- `get_department_from_reason_code` from src/utils/data_loader.py.
`none` models `None`/`NaN`. -/
def get_department_from_reason_code : Option String → String
  | none => "Unknown"
  | some s => reasonCodeResult (pyStrip s)

/-! ### data_loader.py: Scheme B classifier -/

/-- `code[0].upper() if code else ''` from `get_department_from_recut_code`. -/
def firstCharUpper (code : String) : String :=
  match code.data with
  | [] => ""
  | c :: _ => String.mk [c.toUpper]

/-- The first-character fallback chain of `get_department_from_recut_code`. -/
def recutFallback (code : String) : String :=
  if firstCharUpper code = "A" && pyContainsChar code '*' then "Other Machine Error"
  else if firstCharUpper code = "A" && pyContains (pyUpper code) "AMS" then
    "Sewing Machine Error"
  else if firstCharUpper code = "A" then "Sewing Operator Error"
  else if firstCharUpper code = "B" then "Cutting Operator Error"
  else if firstCharUpper code = "C" then "Cutting Operator Error"
  else if firstCharUpper code = "D" then "Material Defect"
  else if firstCharUpper code = "E" then "Other"
  else if firstCharUpper code = "F" then "Cutting Operator Error"
  else if firstCharUpper code = "L" then "Cutting Machine Error"
  else if firstCharUpper code = "P" then "Other"
  else "Other"

/-- Body of `get_department_from_recut_code` on the stripped code: exact
match, then case-insensitive match, then first-character fallback. -/
def recutCodeResult (code : String) : String :=
  match dictLookup code RECUT_LIST_DEPT_MAP with
  | some v => v
  | none =>
    match dictLookupCI code RECUT_LIST_DEPT_MAP with
    | some v => v
    | none => recutFallback code

/-- `get_department_from_recut_code` from src/utils/data_loader.py. -/
def get_department_from_recut_code : Option String → String
  | none => "Unknown"
  | some s => recutCodeResult (pyStrip s)

/-! ### data_loader.py: clean_boolean -/

/-- Dynamically-typed values reaching `clean_boolean`: `None`, float `NaN`,
booleans, ints, non-NaN floats (as exact rationals), and strings. -/
inductive PyVal where
  | vnone
  | vnan
  | vbool (b : Bool)
  | vint (n : Int)
  | vfloat (q : ℚ)
  | vstr (s : String)

/-- `clean_boolean` from src/utils/data_loader.py: `pd.isna` → `False`;
booleans pass through; numerics compare with 1; strings are stripped,
lowercased and tested against the closed truthy set. -/
def clean_boolean : PyVal → Bool
  | .vnone => false
  | .vnan => false
  | .vbool b => b
  | .vint n => n == 1
  | .vfloat q => q == 1
  | .vstr s => ["true", "x", "y", "1", "yes"].contains (pyLower (pyStrip s))

/-! ### data_loader.py: department filters -/

/-- A row of either DataFrame, restricted to the `Department` column the
filter helpers consult. -/
structure ReworkRow where
  department : String
deriving DecidableEq

/-- `filter_by_department` from src/utils/data_loader.py: an empty
department list returns the frame unchanged, otherwise rows whose
`Department` is a member are kept. -/
def filter_by_department (df : List ReworkRow) (departments : List String) :
    List ReworkRow :=
  if departments.isEmpty then df
  else df.filter (fun r => departments.contains r.department)

/-- `get_cutting_errors_sewing_repairs` from src/utils/data_loader.py. -/
def get_cutting_errors_sewing_repairs (df : List ReworkRow) : List ReworkRow :=
  filter_by_department df ["Cutting"]

/-- `get_cutting_errors_recut_list` from src/utils/data_loader.py. -/
def get_cutting_errors_recut_list (df : List ReworkRow) : List ReworkRow :=
  filter_by_department df ["Cutting"]

/-- `get_sewing_errors_sewing_repairs` from src/utils/data_loader.py. -/
def get_sewing_errors_sewing_repairs (df : List ReworkRow) : List ReworkRow :=
  filter_by_department df ["Sewing"]

/-- `get_sewing_errors_recut_list` from src/utils/data_loader.py. -/
def get_sewing_errors_recut_list (df : List ReworkRow) : List ReworkRow :=
  filter_by_department df ["Sewing"]

/-! ### Specification-side definitions (for refinement claims) -/

/-- Specification-side parent-SKU resolver for non-exception SKUs, following
the spec's words: trim, split on `-`, drop segments whose uppercase form is in
the color vocabulary, return the trimmed original if all were dropped, else
rejoin with `-`. -/
def resolveParentSKU_spec (s : String) : String :=
  if ((pySplit '-' (pyStrip s).data).filter (fun p => !isColorSegment p)).isEmpty then
    pyStrip s
  else
    String.mk (joinChar '-' ((pySplit '-' (pyStrip s).data).filter (fun p => !isColorSegment p)))

/-- Specification-side boolean normalizer, following the spec's words:
null/missing → false, booleans pass through, numeric → true iff equal to 1,
string → lowercased/trimmed and true iff in the closed truthy set. -/
def normalizeBoolean_spec : PyVal → Bool
  | .vnone => false
  | .vnan => false
  | .vbool b => b
  | .vint n => decide (n = 1)
  | .vfloat q => decide (q = 1)
  | .vstr s => decide (pyLower (pyStrip s) ∈ ["true", "x", "y", "1", "yes"])

/-! ### Helper lemmas about split / join -/

theorem pySplit_ne_nil (sep : Char) (l : List Char) : pySplit sep l ≠ [] := by
  induction l with
  | nil => simp [pySplit]
  | cons c cs ih =>
    rw [pySplit]
    split
    · simp
    · split
      · simp
      · simp

theorem mem_pySplit_no_sep (sep : Char) (l : List Char) (p : List Char)
    (hp : p ∈ pySplit sep l) : sep ∉ p := by
  induction l generalizing p with
  | nil =>
    simp only [pySplit, List.mem_singleton] at hp
    simp [hp]
  | cons c cs ih =>
    rw [pySplit] at hp
    by_cases hc : c = sep
    · rw [if_pos hc] at hp
      rcases List.mem_cons.mp hp with h | h
      · simp [h]
      · exact ih p h
    · rw [if_neg hc] at hp
      cases hsplit : pySplit sep cs with
      | nil => exact absurd hsplit (pySplit_ne_nil sep cs)
      | cons h t =>
        rw [hsplit] at hp
        rcases List.mem_cons.mp hp with hmem | hmem
        · subst hmem
          intro hin
          rcases List.mem_cons.mp hin with h1 | h1
          · exact hc h1.symm
          · exact ih h (by rw [hsplit]; exact List.mem_cons_self h t) h1
        · exact ih p (by rw [hsplit]; exact List.mem_cons_of_mem h hmem)

theorem pySplit_no_sep (sep : Char) (p : List Char) (h : sep ∉ p) :
    pySplit sep p = [p] := by
  induction p with
  | nil => rfl
  | cons c cs ih =>
    have hc : c ≠ sep := fun he => h (he ▸ List.mem_cons_self c cs)
    have hcs : sep ∉ cs := fun hin => h (List.mem_cons_of_mem c hin)
    rw [pySplit, if_neg hc, ih hcs]

theorem pySplit_append_sep (sep : Char) (p rest : List Char) (h : sep ∉ p) :
    pySplit sep (p ++ sep :: rest) = p :: pySplit sep rest := by
  induction p with
  | nil => simp [pySplit]
  | cons c cs ih =>
    have hc : c ≠ sep := fun he => h (he ▸ List.mem_cons_self c cs)
    have hcs : sep ∉ cs := fun hin => h (List.mem_cons_of_mem c hin)
    rw [List.cons_append, pySplit, if_neg hc, ih hcs]

theorem pySplit_joinChar (sep : Char) (l : List (List Char))
    (hno : ∀ p ∈ l, sep ∉ p) (hne : l ≠ []) :
    pySplit sep (joinChar sep l) = l := by
  induction l with
  | nil => exact absurd rfl hne
  | cons p ps ih =>
    cases ps with
    | nil =>
      rw [joinChar]
      exact pySplit_no_sep sep p (hno p (List.mem_cons_self p []))
    | cons q qs =>
      rw [joinChar,
        pySplit_append_sep sep p (joinChar sep (q :: qs))
          (hno p (List.mem_cons_self p (q :: qs))),
        ih (fun r hr => hno r (List.mem_cons_of_mem p hr)) (by simp)]

/-- `parentCore` is idempotent: no color segment survives the first pass,
the degenerate branch returns its input, and exceptions are fixed points. -/
theorem parentCore_idem (t : String) : parentCore (parentCore t) = parentCore t := by
  by_cases hexc : SKU_EXCEPTIONS.contains t = true
  · have h : parentCore t = t := by rw [parentCore, if_pos hexc]
    rw [h]; exact h
  · by_cases hemp :
      ((pySplit '-' t.data).filter (fun p => !isColorSegment p)).isEmpty = true
    · have h : parentCore t = t := by
        rw [parentCore, if_neg hexc, if_pos hemp]
      rw [h]; exact h
    · have h : parentCore t =
          String.mk (joinChar '-' ((pySplit '-' t.data).filter (fun p => !isColorSegment p))) := by
        rw [parentCore, if_neg hexc, if_neg hemp]
      rw [h]
      set keep := (pySplit '-' t.data).filter (fun p => !isColorSegment p) with hkeep
      by_cases hexc2 : SKU_EXCEPTIONS.contains (String.mk (joinChar '-' keep)) = true
      · rw [parentCore, if_pos hexc2]
      · have hnonnil : keep ≠ [] := by
          intro hn
          exact hemp (List.isEmpty_iff.mpr hn)
        have hnosep : ∀ p ∈ keep, ('-' : Char) ∉ p := by
          intro p hp
          rw [hkeep] at hp
          exact mem_pySplit_no_sep '-' t.data p (List.mem_filter.mp hp).1
        have hsplit : pySplit '-' (String.mk (joinChar '-' keep)).data = keep :=
          pySplit_joinChar '-' keep hnosep hnonnil
        have hff : keep.filter (fun p => !isColorSegment p) = keep := by
          apply List.filter_eq_self.mpr
          intro a ha
          rw [hkeep] at ha
          exact (List.mem_filter.mp ha).2
        rw [parentCore, if_neg hexc2, hsplit, hff, if_neg hemp]

/-! ### Claim theorems -/

/-- C1 (counterexample): the Parent-SKU resolver is not idempotent on all
non-null strings: one pass on `"BK-"` keeps only the empty segment and
returns `""`, while a second pass maps `""` to `None`. -/
theorem C1_not_idempotent_counterexample :
    get_parent_sku (get_parent_sku (some "BK-")) ≠ get_parent_sku (some "BK-") := by
  decide

/-- C1 (amended): the Parent-SKU resolver is idempotent on every non-null
string whose single application yields a non-empty result that is unchanged
by trimming (true in particular for all well-formed SKUs); exception SKUs,
ordinary SKUs and the all-segments-dropped case are covered. -/
theorem C1_parent_sku_idempotent (s r : String)
    (h : get_parent_sku (some s) = some r) (hr : r ≠ "") (hstr : pyStrip r = r) :
    get_parent_sku (get_parent_sku (some s)) = get_parent_sku (some s) := by
  rw [h]
  simp only [get_parent_sku] at h
  by_cases hts : pyStrip s = ""
  · rw [if_pos hts] at h
    exact absurd h (by simp)
  · rw [if_neg hts] at h
    have hrc : parentCore (pyStrip s) = r := Option.some.inj h
    show get_parent_sku (some r) = some r
    simp only [get_parent_sku]
    rw [hstr, if_neg hr, ← hrc, parentCore_idem]

/-- C1 witness: idempotence at the concrete SKU `"AC-ESE-BK"`. -/
theorem C1_parent_sku_idempotent_witness :
    get_parent_sku (get_parent_sku (some "AC-ESE-BK")) = get_parent_sku (some "AC-ESE-BK") :=
  C1_parent_sku_idempotent "AC-ESE-BK" "AC-ESE" (by decide) (by decide) (by decide)

/-- C6: on every non-null SKU that is non-empty after trimming and not an
exception, `get_parent_sku` trims, splits on `-`, drops exactly the
color-vocabulary segments, keeps the rest in order and casing, rejoins with
`-` (returning the trimmed original if all segments were dropped); and the
two concrete examples hold. -/
theorem C6_parent_sku_refines_spec :
    (∀ s : String, pyStrip s ≠ "" → SKU_EXCEPTIONS.contains (pyStrip s) = false →
      get_parent_sku (some s) = some (resolveParentSKU_spec s)) ∧
    get_parent_sku (some "PC-F20-BK-LG") = some "PC-F20-LG" ∧
    get_parent_sku (some "AC-ESE-BK") = some "AC-ESE" := by
  refine ⟨?_, by decide, by decide⟩
  intro s h1 h2
  have hcore : parentCore (pyStrip s) = resolveParentSKU_spec s := by
    rw [parentCore, resolveParentSKU_spec, if_neg (by rw [h2]; decide)]
  simp only [get_parent_sku, if_neg h1, hcore]

/-- C6 witness: the refinement at the concrete SKU `"CR-AL-BK"`. -/
theorem C6_parent_sku_refines_spec_witness :
    get_parent_sku (some "CR-AL-BK") = some (resolveParentSKU_spec "CR-AL-BK") :=
  C6_parent_sku_refines_spec.1 "CR-AL-BK" (by decide) (by decide)

/-- C7: every member of the fixed SKU exception set is a fixed point of the
Parent-SKU resolver, despite containing color-vocabulary segments. -/
theorem C7_exception_skus_fixed :
    ∀ s ∈ SKU_EXCEPTIONS, get_parent_sku (some s) = some s := by
  decide

/-- C7 witness: the exception `"PI-CB"` is returned unchanged. -/
theorem C7_exception_skus_fixed_witness :
    get_parent_sku (some "PI-CB") = some "PI-CB" :=
  C7_exception_skus_fixed "PI-CB" (by decide)

/-! ### Helper lemmas about lookups and prefixes -/

theorem dictLookup_mem_values (l : List (String × String)) (k v : String)
    (h : dictLookup k l = some v) : v ∈ l.map Prod.snd := by
  induction l with
  | nil => simp [dictLookup] at h
  | cons p t ih =>
    obtain ⟨a, b⟩ := p
    rw [dictLookup] at h
    split at h
    · rw [List.map_cons]
      exact (Option.some.inj h) ▸ List.mem_cons_self b _
    · rw [List.map_cons]
      exact List.mem_cons_of_mem _ (ih h)

theorem dictLookupCI_mem_values (l : List (String × String)) (k v : String)
    (h : dictLookupCI k l = some v) : v ∈ l.map Prod.snd := by
  induction l with
  | nil => simp [dictLookupCI] at h
  | cons p t ih =>
    obtain ⟨a, b⟩ := p
    rw [dictLookupCI] at h
    split at h
    · rw [List.map_cons]
      exact (Option.some.inj h) ▸ List.mem_cons_self b _
    · rw [List.map_cons]
      exact List.mem_cons_of_mem _ (ih h)

theorem pyStartswith_trans (c p q : String)
    (hpq : List.isPrefixOf p.data q.data = true) (h : pyStartswith c q = true) :
    pyStartswith c p = true := by
  rw [pyStartswith] at h ⊢
  rw [List.isPrefixOf_iff_prefix] at hpq h ⊢
  exact hpq.trans h

theorem contains_eq_decide_mem (l : List String) (a : String) :
    l.contains a = decide (a ∈ l) := by
  induction l with
  | nil => rfl
  | cons b t ih =>
    rw [List.contains_cons, ih]
    by_cases hab : a = b <;> by_cases hat : a ∈ t <;> simp [hab, hat]

/-! ### Classifier range lemmas -/

theorem reasonCodeResult_mem_sources (c : String) :
    reasonCodeResult c ∈ ERROR_SOURCES := by
  have hvals : ∀ v ∈ SEWING_REPAIRS_DEPT_MAP.map Prod.snd, v ∈ ERROR_SOURCES := by
    decide
  rw [reasonCodeResult]
  cases h1 : dictLookup c SEWING_REPAIRS_DEPT_MAP with
  | some v => exact hvals v (dictLookup_mem_values _ _ _ h1)
  | none =>
    cases h2 : dictLookup (pfxOf c) SEWING_REPAIRS_DEPT_MAP with
    | some v => exact hvals v (dictLookup_mem_values _ _ _ h2)
    | none =>
      rw [reasonFallback]
      split_ifs <;> decide

set_option maxHeartbeats 1000000 in
theorem recutCodeResult_mem_sources (c : String) :
    recutCodeResult c ∈ ERROR_SOURCES := by
  have hvals : ∀ v ∈ RECUT_LIST_DEPT_MAP.map Prod.snd, v ∈ ERROR_SOURCES := by
    decide
  rw [recutCodeResult]
  cases h1 : dictLookup c RECUT_LIST_DEPT_MAP with
  | some v => exact hvals v (dictLookup_mem_values _ _ _ h1)
  | none =>
    cases h2 : dictLookupCI c RECUT_LIST_DEPT_MAP with
    | some v => exact hvals v (dictLookupCI_mem_values _ _ _ h2)
    | none =>
      rw [recutFallback]
      split_ifs <;> decide

/-! ### Remaining claim theorems -/

/-- C2 (counterexample): the literal first fallback rule fails at `"A1AX"`:
it matches no table entry exactly or after prefix extraction, starts with
`A1`, and is not exactly one of `A1A/A1B/A1C/A1D`, yet the classifier does
not return `Cutting Machine Error` (it returns `Cutting Operator Error`,
because the code tests `startswith`, not exact difference). -/
theorem C2_exact_four_counterexample :
    dictLookup "A1AX" SEWING_REPAIRS_DEPT_MAP = none ∧
    dictLookup (pfxOf "A1AX") SEWING_REPAIRS_DEPT_MAP = none ∧
    pyStrip "A1AX" = "A1AX" ∧
    pyStartswith "A1AX" "A1" = true ∧
    "A1AX" ∉ (["A1A", "A1B", "A1C", "A1D"] : List String) ∧
    get_department_from_reason_code (some "A1AX") ≠ "Cutting Machine Error" := by
  decide

/-- C2 (amended): for codes matching neither the Scheme A table exactly nor
after prefix extraction, a trimmed code starting with `A1` but with none of
`A1A/A1B/A1C/A1D` as a prefix classifies as `Cutting Machine Error`, and one
having one of those four as a (proper, by the no-exact-match hypothesis)
prefix classifies as `Cutting Operator Error`. -/
theorem C2_a1_fallback (s : String)
    (h1 : dictLookup (pyStrip s) SEWING_REPAIRS_DEPT_MAP = none)
    (h2 : dictLookup (pfxOf (pyStrip s)) SEWING_REPAIRS_DEPT_MAP = none) :
    (pyStartswith (pyStrip s) "A1" = true →
      pyStartswith (pyStrip s) "A1A" = false →
      pyStartswith (pyStrip s) "A1B" = false →
      pyStartswith (pyStrip s) "A1C" = false →
      pyStartswith (pyStrip s) "A1D" = false →
      get_department_from_reason_code (some s) = "Cutting Machine Error") ∧
    ((pyStartswith (pyStrip s) "A1A" = true ∨ pyStartswith (pyStrip s) "A1B" = true ∨
      pyStartswith (pyStrip s) "A1C" = true ∨ pyStartswith (pyStrip s) "A1D" = true) →
      get_department_from_reason_code (some s) = "Cutting Operator Error") := by
  have hred : get_department_from_reason_code (some s) = reasonFallback (pyStrip s) := by
    show reasonCodeResult (pyStrip s) = reasonFallback (pyStrip s)
    rw [reasonCodeResult, h1]
    rw [h2]
  constructor
  · intro hA1 hA hB hC hD
    rw [hred, reasonFallback, if_pos (by rw [hA1, hA, hB, hC, hD]; rfl)]
  · intro hor
    have hA1 : pyStartswith (pyStrip s) "A1" = true := by
      rcases hor with h | h | h | h <;>
        exact pyStartswith_trans (pyStrip s) "A1" _ (by decide) h
    have hfalse :
        ¬((pyStartswith (pyStrip s) "A1" && !pyStartswith (pyStrip s) "A1A"
            && !pyStartswith (pyStrip s) "A1B" && !pyStartswith (pyStrip s) "A1C"
            && !pyStartswith (pyStrip s) "A1D") = true) := by
      rcases hor with h | h | h | h <;> simp [h]
    rw [hred, reasonFallback, if_neg hfalse, if_pos hA1]

/-- C2 witness: `"A1X"` classifies as `Cutting Machine Error` and `"A1AX"`
as `Cutting Operator Error`. -/
theorem C2_a1_fallback_witness :
    get_department_from_reason_code (some "A1X") = "Cutting Machine Error" ∧
    get_department_from_reason_code (some "A1AX") = "Cutting Operator Error" :=
  ⟨(C2_a1_fallback "A1X" (by decide) (by decide)).1
      (by decide) (by decide) (by decide) (by decide) (by decide),
   (C2_a1_fallback "A1AX" (by decide) (by decide)).2 (Or.inl (by decide))⟩

/-- C3 (counterexample): `"A1Z"` does not classify as
`Cutting Operator Error` as the spec states — the fallback sends unlisted
bare-`A1` variants to the machine-error branch. -/
theorem C3_a1z_counterexample :
    get_department_from_reason_code (some "A1Z") ≠ "Cutting Operator Error" := by
  decide

/-- C3 (amended): `"A1Z"` (unlisted A1 variant) classifies as
`Cutting Machine Error`; `"A1A"` as `Cutting Operator Error` and `"A1"` as
`Cutting Machine Error` via the exact table. -/
theorem C3_a1_variants :
    get_department_from_reason_code (some "A1Z") = "Cutting Machine Error" ∧
    get_department_from_reason_code (some "A1A") = "Cutting Operator Error" ∧
    get_department_from_reason_code (some "A1") = "Cutting Machine Error" := by
  decide

/-- C4 (counterexample): the empty code string does not classify as
`Unknown` in either scheme — it falls through every rule to `Other`. -/
theorem C4_blank_counterexample :
    get_department_from_reason_code (some "") ≠ "Unknown" ∧
    get_department_from_recut_code (some "") ≠ "Unknown" := by
  decide

/-- C4 (amended): null (`None`/`NaN`) input classifies as `Unknown` in both
schemes, while empty or whitespace-only code strings classify as `Other` in
both schemes. -/
theorem C4_null_unknown_blank_other :
    get_department_from_reason_code none = "Unknown" ∧
    get_department_from_recut_code none = "Unknown" ∧
    (∀ s : String, pyStrip s = "" →
      get_department_from_reason_code (some s) = "Other" ∧
      get_department_from_recut_code (some s) = "Other") := by
  refine ⟨rfl, rfl, fun s h => ⟨?_, ?_⟩⟩
  · show reasonCodeResult (pyStrip s) = "Other"
    rw [h]
    decide
  · show recutCodeResult (pyStrip s) = "Other"
    rw [h]
    decide

/-- C4 witness: the whitespace-only code `"  "` classifies as `Other` in
both schemes. -/
theorem C4_null_unknown_blank_other_witness :
    get_department_from_reason_code (some "  ") = "Other" ∧
    get_department_from_recut_code (some "  ") = "Other" :=
  C4_null_unknown_blank_other.2.2 "  " (by decide)

/-- C5: exact table match takes precedence — every key of the Scheme A table
classifies to that table's value, and likewise for the Scheme B table. -/
theorem C5_exact_table_precedence :
    (∀ kv ∈ SEWING_REPAIRS_DEPT_MAP,
      get_department_from_reason_code (some kv.1) = kv.2) ∧
    (∀ kv ∈ RECUT_LIST_DEPT_MAP,
      get_department_from_recut_code (some kv.1) = kv.2) := by
  constructor <;> decide

/-- C5 witness: the table keys `"S3"` (Scheme A) and `"A/D"` (Scheme B) map
to their table values. -/
theorem C5_exact_table_precedence_witness :
    get_department_from_reason_code (some "S3") = "Sewing Operator Error" ∧
    get_department_from_recut_code (some "A/D") = "Other" :=
  ⟨C5_exact_table_precedence.1 ("S3", "Sewing Operator Error") (by decide),
   C5_exact_table_precedence.2 ("A/D", "Other") (by decide)⟩

/-- C8: both classifiers are total and, for every input (null or any
string), return a member of the closed 8-value ErrorSource set. -/
theorem C8_classifiers_total_range (x : Option String) :
    get_department_from_reason_code x ∈ ERROR_SOURCES ∧
    get_department_from_recut_code x ∈ ERROR_SOURCES := by
  constructor
  · cases x with
    | none => decide
    | some s => exact reasonCodeResult_mem_sources (pyStrip s)
  · cases x with
    | none => decide
    | some s => exact recutCodeResult_mem_sources (pyStrip s)

/-- C9: `clean_boolean` refines the spec's `normalizeBoolean` on every
dynamically-typed input, and the four concrete examples hold. -/
theorem C9_clean_boolean_refines_spec :
    (∀ v : PyVal, clean_boolean v = normalizeBoolean_spec v) ∧
    clean_boolean (PyVal.vstr "X") = true ∧
    clean_boolean (PyVal.vstr "maybe") = false ∧
    clean_boolean (PyVal.vint 1) = true ∧
    clean_boolean (PyVal.vint 2) = false := by
  refine ⟨fun v => ?_, by decide, by decide, by decide, by decide⟩
  cases v with
  | vnone => rfl
  | vnan => rfl
  | vbool b => rfl
  | vint n =>
    show (n == 1) = decide (n = 1)
    by_cases h : n = 1
    · subst h; decide
    · rw [beq_eq_false_iff_ne.mpr h, decide_eq_false h]
  | vfloat q =>
    show (q == 1) = decide (q = 1)
    by_cases h : q = 1
    · subst h; decide
    · rw [beq_eq_false_iff_ne.mpr h, decide_eq_false h]
  | vstr s =>
    show (["true", "x", "y", "1", "yes"].contains (pyLower (pyStrip s)))
        = decide (pyLower (pyStrip s) ∈ ["true", "x", "y", "1", "yes"])
    rw [contains_eq_decide_mem]

/-- C10: on any DataFrame whose Department column holds only classifier
outputs (members of the 8-value ErrorSource set), all four
cutting/sewing department filter helpers return an empty result, since they
filter on the literal labels `Cutting` and `Sewing` which no classifier
output equals. -/
theorem C10_department_filters_empty (df : List ReworkRow)
    (h : ∀ r ∈ df, r.department ∈ ERROR_SOURCES) :
    get_cutting_errors_sewing_repairs df = [] ∧
    get_cutting_errors_recut_list df = [] ∧
    get_sewing_errors_sewing_repairs df = [] ∧
    get_sewing_errors_recut_list df = [] := by
  have hnc : ∀ d ∈ ERROR_SOURCES, d ≠ "Cutting" := by decide
  have hns : ∀ d ∈ ERROR_SOURCES, d ≠ "Sewing" := by decide
  have hc : filter_by_department df ["Cutting"] = [] := by
    rw [filter_by_department, if_neg (by decide)]
    apply List.filter_eq_nil_iff.mpr
    intro r hr
    simp only [List.contains_cons, List.contains_nil, Bool.or_false, beq_iff_eq]
    exact hnc r.department (h r hr)
  have hs : filter_by_department df ["Sewing"] = [] := by
    rw [filter_by_department, if_neg (by decide)]
    apply List.filter_eq_nil_iff.mpr
    intro r hr
    simp only [List.contains_cons, List.contains_nil, Bool.or_false, beq_iff_eq]
    exact hns r.department (h r hr)
  exact ⟨hc, hc, hs, hs⟩

/-- C10 witness: the four filters are empty on a concrete two-row frame
carrying classifier outputs. -/
theorem C10_department_filters_empty_witness :
    get_cutting_errors_sewing_repairs [⟨"Unknown"⟩, ⟨"Other"⟩] = [] ∧
    get_cutting_errors_recut_list [⟨"Unknown"⟩, ⟨"Other"⟩] = [] ∧
    get_sewing_errors_sewing_repairs [⟨"Unknown"⟩, ⟨"Other"⟩] = [] ∧
    get_sewing_errors_recut_list [⟨"Unknown"⟩, ⟨"Other"⟩] = [] :=
  C10_department_filters_empty [⟨"Unknown"⟩, ⟨"Other"⟩] (by decide)

end RecutTracker
